import Mathlib

/-!
Shallow embedding of the discount canonicalization/transformation core of
the dodo-migrate repository, together with proofs checking the repository's
natural-language specification against the code.

Sources embedded:
- `src/src/models/discount.ts` (`CanonicalDiscount`, `DodoPaymentsDiscount`,
  `transformToDodoPayments`, `validateCanonicalDiscount`,
  `transformMultipleToDodoPayments`)
- `src/src/adapters/lemonsqueezy/importDiscounts.ts`
  (`importLemonSqueezyDiscounts`, `transformLemonSqueezyDiscount`,
  `filterDiscounts`)

Modelling conventions:
- JavaScript numbers are modelled as `ℚ` (exact arithmetic; the claims at
  issue concern presence/absence of rounding, not binary-float artefacts).
- `x | null` fields are modelled as `Option`.
- A thrown `Error` is modelled as the error side of `Except`; each distinct
  `throw new Error(...)` site becomes one constructor of an error type,
  carrying the data interpolated into its message.
- `console.warn` output is modelled as an explicit warning component of the
  result (a count for the batch transformer, a list for the importer).
-/

/-- The `provider` union type of `CanonicalDiscount`. -/
inductive Provider
  | lemonsqueezy
  | stripe
  | polar
deriving DecidableEq, Repr

/-- The `duration` union type `'once' | 'repeating' | 'forever'`. -/
inductive Duration
  | once
  | repeating
  | forever
deriving DecidableEq, Repr

/-- The `status` union type `'published' | 'draft' | 'archived'`. -/
inductive DiscountStatus
  | published
  | draft
  | archived
deriving DecidableEq, Repr

/-- `CanonicalDiscount` from `src/src/models/discount.ts`.
`providerData` (an open `Record<string, any>`) is modelled as an
association list of string key/value pairs; it is never interpreted. -/
structure CanonicalDiscount where
  id : String
  provider : Provider
  name : String
  code : String
  amount : ℚ
  isPercent : Bool
  duration : Duration
  durationInMonths : Option ℚ
  status : DiscountStatus
  usageLimit : Option ℚ
  expiresAt : Option String
  createdAt : String
  updatedAt : String
  providerData : List (String × String)
deriving DecidableEq, Repr

/-- `DodoPaymentsDiscount` from `src/src/models/discount.ts`. The `type`
field always carries the literal `"percentage"`. -/
structure DodoPaymentsDiscount where
  name : String
  code : String
  type : String
  amount : ℚ
  usage_limit : Option ℚ
  expires_at : Option String
  brand_id : String
  duration : Duration
  duration_in_months : Option ℚ
deriving DecidableEq, Repr

/-- The two distinct `throw new Error(...)` sites of
`transformToDodoPayments`, each carrying the data interpolated into its
message:
- `invalidDiscount id` models
  `Invalid discount data: missing name or code for discount <id>`;
- `unsupportedDiscount name` models
  `Dodo Payments only supports percentage discounts. Cannot migrate fixed
  amount discount: <name>`. -/
inductive DiscountError
  | invalidDiscount (id : String)
  | unsupportedDiscount (name : String)
deriving DecidableEq, Repr

deriving instance DecidableEq for Except

/-- `transformToDodoPayments` from `src/src/models/discount.ts`.
A JavaScript falsiness test `!s` on a string field is `s = ""`. -/
def transformToDodoPayments (canonicalDiscount : CanonicalDiscount)
    (brandId : String) : Except DiscountError DodoPaymentsDiscount :=
  if canonicalDiscount.name = "" ∨ canonicalDiscount.code = "" then
    Except.error (DiscountError.invalidDiscount canonicalDiscount.id)
  else if canonicalDiscount.isPercent = false then
    Except.error (DiscountError.unsupportedDiscount canonicalDiscount.name)
  else
    Except.ok
      { name := canonicalDiscount.name
        code := canonicalDiscount.code
        type := "percentage"
        amount := canonicalDiscount.amount * 100
        usage_limit := canonicalDiscount.usageLimit
        expires_at := canonicalDiscount.expiresAt
        brand_id := brandId
        duration := canonicalDiscount.duration
        duration_in_months := canonicalDiscount.durationInMonths }

/-- `typeof x === 'number' && x > 0` on a `number | null` value. -/
def dimPositiveNumber : Option ℚ → Bool
  | some m => decide (0 < m)
  | none => false

/-- `validateCanonicalDiscount` from `src/src/models/discount.ts`.
The source's membership check of `duration` in
`['once', 'repeating', 'forever']` always succeeds here because the model
uses the union type `Duration` directly. -/
def validateCanonicalDiscount (discount : CanonicalDiscount) : Bool :=
  if discount.id = "" ∨ discount.name = "" ∨ discount.code = "" then
    false
  else if discount.amount < 0 then
    false
  else if discount.duration = Duration.repeating ∧
      dimPositiveNumber discount.durationInMonths = false then
    false
  else if discount.duration ≠ Duration.repeating ∧
      discount.durationInMonths ≠ none then
    false
  else
    true

/-- `transformMultipleToDodoPayments` from `src/src/models/discount.ts`.
The second component of the result is the invalid-record count reported by
the `console.warn` line (`0` when nothing is filtered out, in which case the
source prints no warning). The warning is computed before the per-record
transformation, so it is present even when a transformation throws. -/
def transformMultipleToDodoPayments (discounts : List CanonicalDiscount)
    (brandId : String) :
    Except DiscountError (List DodoPaymentsDiscount) × Nat :=
  let validDiscounts := discounts.filter (fun d => validateCanonicalDiscount d)
  let invalidCount := discounts.length - validDiscounts.length
  (validDiscounts.mapM (fun discount => transformToDodoPayments discount brandId),
   invalidCount)

/-- The `typeFilter` union type `'percentage' | 'fixed'` of
`filterDiscounts`. -/
inductive TypeFilter
  | percentage
  | fixed
deriving DecidableEq, Repr

/-- `filterDiscounts` from
`src/src/adapters/lemonsqueezy/importDiscounts.ts`. Both filter parameters
are optional; `none` models an omitted argument. -/
def filterDiscounts (discounts : List CanonicalDiscount)
    (statusFilter : Option DiscountStatus := none)
    (typeFilter : Option TypeFilter := none) : List CanonicalDiscount :=
  let filtered := discounts
  let filtered :=
    match statusFilter with
    | some s => filtered.filter (fun discount => decide (discount.status = s))
    | none => filtered
  let filtered :=
    match typeFilter with
    | some t =>
        let isPercent := decide (t = TypeFilter.percentage)
        filtered.filter (fun discount => discount.isPercent == isPercent)
    | none => filtered
  filtered

/-- The `attributes` object of the raw `LemonSqueezyDiscount` record
(`src/src/models/discount.ts`). `duration` and `amount_type` are kept as
`String` because `transformLemonSqueezyDiscount` has an explicit fallback
branch for duration values outside the declared union. -/
structure LSAttributes where
  store_id : Int
  name : String
  code : String
  amount : ℚ
  amount_type : String
  status : DiscountStatus
  duration : String
  duration_in_months : Option ℚ
  is_limited_redemptions : Bool
  max_redemptions : Option ℚ
  expires_at : Option String
  created_at : String
  updated_at : String
deriving DecidableEq, Repr

/-- `LemonSqueezyDiscount` from `src/src/models/discount.ts`. -/
structure LemonSqueezyDiscount where
  id : String
  type : String
  attributes : LSAttributes
deriving DecidableEq, Repr

/-- The `console.warn` emitted by the fallback branch of
`transformLemonSqueezyDiscount`: carries the unknown duration string and
the discount name interpolated into the warning message. -/
inductive ImportWarning
  | unknownDuration (duration : String) (name : String)
deriving DecidableEq, Repr

/-- `transformLemonSqueezyDiscount` from
`src/src/adapters/lemonsqueezy/importDiscounts.ts`. The first component is
the returned `CanonicalDiscount`; the second lists the warnings printed
while mapping (empty except in the unknown-duration fallback).
The TypeScript `switch` on `lsDiscount.attributes.duration` is embedded as
a sequential comparison chain with the same cases and default. -/
def transformLemonSqueezyDiscount (lsDiscount : LemonSqueezyDiscount) :
    CanonicalDiscount × List ImportWarning :=
  let dmw : Duration × Option ℚ × List ImportWarning :=
    if lsDiscount.attributes.duration = "once" then
      (Duration.once, none, [])
    else if lsDiscount.attributes.duration = "forever" then
      (Duration.forever, none, [])
    else if lsDiscount.attributes.duration = "repeating" then
      (Duration.repeating, lsDiscount.attributes.duration_in_months, [])
    else
      (Duration.once, none,
       [ImportWarning.unknownDuration lsDiscount.attributes.duration
          lsDiscount.attributes.name])
  ({ id := lsDiscount.id
     provider := Provider.lemonsqueezy
     name := lsDiscount.attributes.name
     code := lsDiscount.attributes.code
     amount := lsDiscount.attributes.amount
     isPercent := decide (lsDiscount.attributes.amount_type = "percent")
     duration := dmw.1
     durationInMonths := dmw.2.1
     status := lsDiscount.attributes.status
     usageLimit :=
       if lsDiscount.attributes.is_limited_redemptions then
         lsDiscount.attributes.max_redemptions
       else none
     expiresAt := lsDiscount.attributes.expires_at
     createdAt := lsDiscount.attributes.created_at
     updatedAt := lsDiscount.attributes.updated_at
     providerData :=
       [("store_id", toString lsDiscount.attributes.store_id),
        ("amount_type", lsDiscount.attributes.amount_type)] },
   dmw.2.2)

/-- The `throw new Error(...)` of `importLemonSqueezyDiscounts`:
`Failed to fetch discounts from LemonSqueezy: <message>` where the message
is the upstream error message or `Unknown error`. -/
inductive SourceFetchError
  | fetchFailed (message : String)
deriving DecidableEq, Repr

/-- The shape of the upstream `listDiscounts()` response consumed by
`importLemonSqueezyDiscounts`: `{ data, error?, statusCode }`, with the
upstream error modelled by its message string. -/
structure LSListResponse where
  data : List LemonSqueezyDiscount
  error : Option String
  statusCode : Nat
deriving DecidableEq, Repr

/-- `importLemonSqueezyDiscounts` from
`src/src/adapters/lemonsqueezy/importDiscounts.ts`, with the awaited
`listDiscounts()` response passed in as an explicit argument. The catch
block only logs and rethrows, so it does not change the result. -/
def importLemonSqueezyDiscounts (response : LSListResponse) :
    Except SourceFetchError (List CanonicalDiscount) :=
  if response.error ≠ none ∨ response.statusCode ≠ 200 then
    Except.error
      (SourceFetchError.fetchFailed
        (match response.error with
         | some m => m
         | none => "Unknown error"))
  else
    Except.ok
      (response.data.map (fun lsDiscount =>
        (transformLemonSqueezyDiscount lsDiscount).1))

/-! Concrete records used as test inputs by the witnesses and
counterexamples below. `springDiscount` is the §8 scenario-6 record of the
specification. -/

/-- The scenario record of spec §8 item 6: a valid published 20% discount. -/
def springDiscount : CanonicalDiscount :=
  { id := "d1", provider := Provider.lemonsqueezy, name := "Spring",
    code := "SPRING20", amount := 20, isPercent := true,
    duration := Duration.once, durationInMonths := none,
    status := DiscountStatus.published, usageLimit := none,
    expiresAt := none, createdAt := "2024-01-01T00:00:00Z",
    updatedAt := "2024-01-01T00:00:00Z", providerData := [] }

/-- A valid percentage discount whose amount times 100 is not an integer. -/
def fractionalDiscount : CanonicalDiscount :=
  { springDiscount with amount := 1/200 }

/-- A valid percentage discount with the fractional amount 12.5. -/
def halfPercentDiscount : CanonicalDiscount :=
  { springDiscount with amount := 25/2 }

/-- A structurally valid fixed-amount (non-percentage) discount. -/
def fixedDiscount : CanonicalDiscount :=
  { springDiscount with
    name := "Fixed10"
    code := "F10"
    amount := 500
    isPercent := false }

/-- A discount failing validation (empty `id`) but with nonempty `name` and
`code` and `isPercent = true`. -/
def emptyIdDiscount : CanonicalDiscount :=
  { springDiscount with id := "" }

/-- A fixed-amount discount with an empty `name`. -/
def emptyNameFixedDiscount : CanonicalDiscount :=
  { springDiscount with name := "", isPercent := false }

/-- A percentage discount with an empty `name`. -/
def emptyNameDiscount : CanonicalDiscount :=
  { springDiscount with name := "" }

/-- A fixed-amount discount with an empty `code`. -/
def emptyCodeFixedDiscount : CanonicalDiscount :=
  { springDiscount with code := "", isPercent := false }

/-- A repeating discount whose `durationInMonths` is the non-integer 1/2. -/
def halfMonthDiscount : CanonicalDiscount :=
  { springDiscount with
    duration := Duration.repeating
    durationInMonths := some (1/2) }

/-- A repeating discount with `durationInMonths = null`. -/
def repeatingNullDiscount : CanonicalDiscount :=
  { springDiscount with
    duration := Duration.repeating
    durationInMonths := none }

/-- An upstream list response with a non-success status code. -/
def failedResponse : LSListResponse :=
  { data := [], error := none, statusCode := 500 }

/-- A raw LemonSqueezy record with `duration = 'repeating'` and
`duration_in_months = null`. -/
def lsRepeatingNull : LemonSqueezyDiscount :=
  { id := "ls1", type := "discounts",
    attributes :=
      { store_id := 1, name := "Rep", code := "REP", amount := 10,
        amount_type := "percent", status := DiscountStatus.published,
        duration := "repeating", duration_in_months := none,
        is_limited_redemptions := false, max_redemptions := none,
        expires_at := none, created_at := "2024-01-01T00:00:00Z",
        updated_at := "2024-01-01T00:00:00Z" } }

/-- The Boolean predicate "satisfies every supplied filter constraint": the
status matches when a status filter is supplied, and `isPercent` matches the
supplied type filter (`percentage` demands `isPercent = true`). Used to
state what `filterDiscounts` returns. -/
def matchesDiscountFilters (d : CanonicalDiscount)
    (statusFilter : Option DiscountStatus)
    (typeFilter : Option TypeFilter) : Bool :=
  (match statusFilter with
   | none => true
   | some s => decide (d.status = s)) &&
  (match typeFilter with
   | none => true
   | some t => d.isPercent == decide (t = TypeFilter.percentage))

/-! Helper lemmas shared by the claim theorems. -/

/-- A discount passing `validateCanonicalDiscount` has nonempty `id`,
`name` and `code` and a non-negative amount. -/
lemma validate_fields (d : CanonicalDiscount)
    (h : validateCanonicalDiscount d = true) :
    d.id ≠ "" ∧ d.name ≠ "" ∧ d.code ≠ "" ∧ ¬ d.amount < 0 := by
  unfold validateCanonicalDiscount at h
  split_ifs at h with h1 h2 h3 h4
  push_neg at h1
  exact ⟨h1.1, h1.2.1, h1.2.2, h2⟩

/-- On a discount with nonempty `name` and `code` and `isPercent = true`,
`transformToDodoPayments` succeeds and multiplies the amount by 100. -/
lemma transform_ok (d : CanonicalDiscount) (b : String)
    (hn : d.name ≠ "") (hc : d.code ≠ "") (hp : d.isPercent = true) :
    transformToDodoPayments d b = Except.ok
      { name := d.name, code := d.code, type := "percentage",
        amount := d.amount * 100, usage_limit := d.usageLimit,
        expires_at := d.expiresAt, brand_id := b,
        duration := d.duration, duration_in_months := d.durationInMonths } := by
  simp [transformToDodoPayments, hn, hc, hp]

/-- A `durationInMonths` value reported positive is not `null`. -/
lemma dimPositiveNumber_ne_none (o : Option ℚ)
    (h : dimPositiveNumber o = true) : o ≠ none := by
  cases o with
  | none => simp [dimPositiveNumber] at h
  | some m => simp

/-- A discount with `duration = repeating` and `durationInMonths = null`
fails validation. -/
lemma validate_false_of_repeating_none (d : CanonicalDiscount)
    (hd : d.duration = Duration.repeating)
    (hm : d.durationInMonths = none) :
    validateCanonicalDiscount d = false := by
  unfold validateCanonicalDiscount
  split_ifs with h1 h2 h3 h4 <;> try rfl
  exact absurd ⟨hd, by simp [hm, dimPositiveNumber]⟩ h3

/-! ## Claim C1 -/

/-- C1 counterexample: `fractionalDiscount` is valid with
`isPercent = true` and `amount = 1/200`, yet the transformed amount is
`1/200 * 100 = 1/2`, while `round(amount * 100) = round(1/2) = 1`. The
code multiplies by 100 without rounding, so the claim's equation
`transformed amount = round(d.amount * 100)` fails at this input. -/
theorem c1_counterexample :
    validateCanonicalDiscount fractionalDiscount = true ∧
    fractionalDiscount.isPercent = true ∧
    transformToDodoPayments fractionalDiscount "brand_1" =
      Except.ok
        { name := "Spring", code := "SPRING20", type := "percentage",
          amount := 1/2, usage_limit := none, expires_at := none,
          brand_id := "brand_1", duration := Duration.once,
          duration_in_months := none } ∧
    round (fractionalDiscount.amount * 100) = (1 : ℤ) ∧
    ((1 : ℚ)/2) ≠ ((1 : ℤ) : ℚ) := by
  refine ⟨?_, rfl, ?_, ?_, by norm_num⟩
  · simp [validateCanonicalDiscount, fractionalDiscount, springDiscount]
  · simp [transformToDodoPayments, fractionalDiscount, springDiscount]
    norm_num
  · show round ((1/200 : ℚ) * 100) = (1 : ℤ)
    norm_num [round_eq]

/-- C1 (amended): for every valid `CanonicalDiscount` with
`isPercent = true`, `transformToDodoPayments` succeeds and the returned
amount equals `d.amount * 100` exactly — no rounding is applied (this
coincides with `round(d.amount * 100)` exactly when `d.amount * 100` is an
integer, e.g. 15 ↦ 1500 and 12.5 ↦ 1250). -/
theorem c1_amended_transform_amount (d : CanonicalDiscount) (b : String)
    (hv : validateCanonicalDiscount d = true) (hp : d.isPercent = true) :
    ∃ out, transformToDodoPayments d b = Except.ok out ∧
      out.amount = d.amount * 100 := by
  obtain ⟨-, hn, hc, -⟩ := validate_fields d hv
  exact ⟨_, transform_ok d b hn hc hp, rfl⟩

/-- Witness for C1 (amended) at the spec's example `amount = 12.5`. -/
theorem c1_amended_transform_amount_witness :
    validateCanonicalDiscount halfPercentDiscount = true ∧
    halfPercentDiscount.isPercent = true ∧
    ∃ out, transformToDodoPayments halfPercentDiscount "brand_1" =
        Except.ok out ∧
      out.amount = halfPercentDiscount.amount * 100 := by
  have hv : validateCanonicalDiscount halfPercentDiscount = true := by
    simp [validateCanonicalDiscount, halfPercentDiscount, springDiscount]
    norm_num
  exact ⟨hv, rfl,
    c1_amended_transform_amount halfPercentDiscount "brand_1" hv rfl⟩

/-! ## Claim C2 -/

/-- `mapM` of the transformer over a list of validated percentage discounts
succeeds and returns one output per input. -/
lemma mapM_transform_ok (b : String) :
    ∀ l : List CanonicalDiscount,
      (∀ d ∈ l, validateCanonicalDiscount d = true) →
      (∀ d ∈ l, d.isPercent = true) →
      ∃ out, l.mapM (fun d => transformToDodoPayments d b) = Except.ok out ∧
        out.length = l.length := by
  intro l
  induction l with
  | nil => exact fun _ _ => ⟨[], rfl, rfl⟩
  | cons hd tl ih =>
    intro hv hp
    obtain ⟨-, hn, hc, -⟩ :=
      validate_fields hd (hv hd (List.mem_cons_self hd tl))
    obtain ⟨out, hout, hlen⟩ :=
      ih (fun d hmem => hv d (List.mem_cons_of_mem hd hmem))
        (fun d hmem => hp d (List.mem_cons_of_mem hd hmem))
    have heq : (hd :: tl).mapM (fun d => transformToDodoPayments d b) =
        Except.ok
          ({ name := hd.name
             code := hd.code
             type := "percentage"
             amount := hd.amount * 100
             usage_limit := hd.usageLimit
             expires_at := hd.expiresAt
             brand_id := b
             duration := hd.duration
             duration_in_months := hd.durationInMonths } :: out) := by
      rw [List.mapM_cons,
        transform_ok hd b hn hc (hp hd (List.mem_cons_self hd tl)), hout]
      rfl
    exact ⟨_, heq, by simp [hlen]⟩

/-- The records passing validation plus the records failing it account for
the whole input. -/
lemma length_filter_validate (l : List CanonicalDiscount) :
    (l.filter (fun d => validateCanonicalDiscount d)).length +
      (l.filter (fun d => !validateCanonicalDiscount d)).length = l.length := by
  induction l with
  | nil => rfl
  | cons hd tl ih =>
    by_cases h : validateCanonicalDiscount hd = true <;>
      simp [List.filter_cons, h] <;> omega

/-- C2 counterexample: `fixedDiscount` passes `validate` (so N = 1, K = 0),
but `transformMultipleToDodoPayments` on `[fixedDiscount]` aborts with the
unsupported-discount error instead of returning 1 − 0 = 1 transformed
record: a single record's transformation failure in batch mode does abort
the batch. -/
theorem c2_counterexample :
    validateCanonicalDiscount fixedDiscount = true ∧
    (transformMultipleToDodoPayments [fixedDiscount] "brand_1").1 =
      Except.error (DiscountError.unsupportedDiscount "Fixed10") ∧
    (transformMultipleToDodoPayments [fixedDiscount] "brand_1").2 = 0 := by
  have hval : validateCanonicalDiscount fixedDiscount = true := by
    simp [validateCanonicalDiscount, fixedDiscount, springDiscount]
  have ht : transformToDodoPayments fixedDiscount "brand_1" =
      Except.error (DiscountError.unsupportedDiscount "Fixed10") := by
    simp [transformToDodoPayments, fixedDiscount, springDiscount]
  refine ⟨hval, ?_, ?_⟩
  · show ([fixedDiscount].filter (fun d => validateCanonicalDiscount d)).mapM
        (fun d => transformToDodoPayments d "brand_1") =
      Except.error (DiscountError.unsupportedDiscount "Fixed10")
    simp only [List.filter_cons, hval, if_true, List.filter_nil, ite_true]
    rw [List.mapM_cons, ht]
    rfl
  · show [fixedDiscount].length -
        ([fixedDiscount].filter (fun d => validateCanonicalDiscount d)).length = 0
    simp [List.filter_cons, hval]

/-- C2 (amended): when every record that passes `validate` is a percentage
discount, `transformMultipleToDodoPayments` on N records of which K fail
`validate` returns exactly N − K transformed records and reports an
exclusion count of K (the warning count equals the number of records
failing validation). Without that proviso the batch aborts, as the
counterexample shows. -/
theorem c2_amended_batch_count (discounts : List CanonicalDiscount)
    (b : String)
    (h : ∀ d ∈ discounts, validateCanonicalDiscount d = true →
      d.isPercent = true) :
    ∃ out, (transformMultipleToDodoPayments discounts b).1 = Except.ok out ∧
      out.length = discounts.length -
        (discounts.filter (fun d => !validateCanonicalDiscount d)).length ∧
      (transformMultipleToDodoPayments discounts b).2 =
        (discounts.filter (fun d => !validateCanonicalDiscount d)).length := by
  have hvmem : ∀ d ∈ discounts.filter (fun d => validateCanonicalDiscount d),
      validateCanonicalDiscount d = true :=
    fun d hd => (List.mem_filter.mp hd).2
  have hpmem : ∀ d ∈ discounts.filter (fun d => validateCanonicalDiscount d),
      d.isPercent = true :=
    fun d hd => h d (List.mem_filter.mp hd).1 (hvmem d hd)
  obtain ⟨out, hout, hlen⟩ :=
    mapM_transform_ok b (discounts.filter (fun d => validateCanonicalDiscount d))
      hvmem hpmem
  have hsum := length_filter_validate discounts
  refine ⟨out, hout, by omega, ?_⟩
  show discounts.length -
      (discounts.filter (fun d => validateCanonicalDiscount d)).length = _
  omega

/-- Witness for C2 (amended): a 2-record batch with one invalid record
(N = 2, K = 1) in which every validated record is a percentage discount. -/
theorem c2_amended_batch_count_witness :
    (∀ d ∈ [springDiscount, emptyIdDiscount],
      validateCanonicalDiscount d = true → d.isPercent = true) ∧
    ∃ out, (transformMultipleToDodoPayments [springDiscount, emptyIdDiscount]
        "brand_1").1 = Except.ok out ∧
      out.length = [springDiscount, emptyIdDiscount].length -
        ([springDiscount, emptyIdDiscount].filter
          (fun d => !validateCanonicalDiscount d)).length ∧
      (transformMultipleToDodoPayments [springDiscount, emptyIdDiscount]
        "brand_1").2 =
        ([springDiscount, emptyIdDiscount].filter
          (fun d => !validateCanonicalDiscount d)).length := by
  have h : ∀ d ∈ [springDiscount, emptyIdDiscount],
      validateCanonicalDiscount d = true → d.isPercent = true := by
    intro d hd
    rcases List.mem_pair.mp hd with h1 | h2
    · subst h1; exact fun _ => rfl
    · subst h2; exact fun _ => rfl
  exact ⟨h, c2_amended_batch_count [springDiscount, emptyIdDiscount]
    "brand_1" h⟩

/-! ## Claim C3 -/

/-- C3 counterexample: `emptyNameFixedDiscount` has `isPercent = false`,
yet `transformToDodoPayments` raises the `InvalidDiscountError`
(missing name or code), not the `UnsupportedDiscountError`: the claim's
universal statement fails for records with an empty `name` or `code`. -/
theorem c3_counterexample :
    emptyNameFixedDiscount.isPercent = false ∧
    transformToDodoPayments emptyNameFixedDiscount "brand_1" =
      Except.error (DiscountError.invalidDiscount "d1") ∧
    DiscountError.invalidDiscount "d1" ≠
      DiscountError.unsupportedDiscount emptyNameFixedDiscount.name := by
  refine ⟨rfl, ?_, fun h => DiscountError.noConfusion h⟩
  simp [transformToDodoPayments, emptyNameFixedDiscount, springDiscount]

/-- C3 (amended): for every `CanonicalDiscount` with nonempty `name` and
`code` and `isPercent = false`, `transformToDodoPayments` raises the
`UnsupportedDiscountError`, which is a different structured error from
every `InvalidDiscountError` (distinct constructors). When `name` or
`code` is empty, the `InvalidDiscountError` is raised instead. -/
theorem c3_amended_reject_fixed (d : CanonicalDiscount) (b : String)
    (hn : d.name ≠ "") (hc : d.code ≠ "") (hp : d.isPercent = false) :
    transformToDodoPayments d b =
      Except.error (DiscountError.unsupportedDiscount d.name) ∧
    ∀ i, DiscountError.unsupportedDiscount d.name ≠
      DiscountError.invalidDiscount i := by
  refine ⟨?_, fun i h => DiscountError.noConfusion h⟩
  simp [transformToDodoPayments, hn, hc, hp]

/-- Witness for C3 (amended): a fixed-amount discount with nonempty name
and code. -/
theorem c3_amended_reject_fixed_witness :
    (fixedDiscount.name ≠ "" ∧ fixedDiscount.code ≠ "" ∧
      fixedDiscount.isPercent = false) ∧
    transformToDodoPayments fixedDiscount "brand_1" =
      Except.error (DiscountError.unsupportedDiscount fixedDiscount.name) ∧
    ∀ i, DiscountError.unsupportedDiscount fixedDiscount.name ≠
      DiscountError.invalidDiscount i := by
  have h := c3_amended_reject_fixed fixedDiscount "brand_1"
    (by simp [fixedDiscount, springDiscount])
    (by simp [fixedDiscount, springDiscount]) rfl
  exact ⟨⟨by simp [fixedDiscount, springDiscount],
    by simp [fixedDiscount, springDiscount], rfl⟩, h⟩

/-! ## Claim C4 -/

/-- C4 counterexample: `emptyIdDiscount` fails the §3 invariants (empty
`id`, so `validate` returns `false`), yet calling `transform` directly on
it succeeds, returning a result instead of raising a hard error: the
transformer does not check the §3 invariants beyond `name` and `code`. -/
theorem c4_counterexample :
    validateCanonicalDiscount emptyIdDiscount = false ∧
    transformToDodoPayments emptyIdDiscount "brand_1" =
      Except.ok
        { name := "Spring", code := "SPRING20", type := "percentage",
          amount := 2000, usage_limit := none, expires_at := none,
          brand_id := "brand_1", duration := Duration.once,
          duration_in_months := none } := by
  constructor
  · simp [validateCanonicalDiscount, emptyIdDiscount, springDiscount]
  · simp [transformToDodoPayments, emptyIdDiscount, springDiscount]
    norm_num

/-- C4 (amended): `transformToDodoPayments` fails with the
`InvalidDiscountError` exactly when `name` or `code` is empty; it checks
nothing else of the §3 invariants, so any record with nonempty `name` and
`code` and `isPercent = true` — even one failing validation through an
empty `id`, a negative amount, or a duration mismatch — is transformed
successfully rather than raising a hard error. -/
theorem c4_amended_transform_checks (d : CanonicalDiscount) (b : String) :
    ((d.name = "" ∨ d.code = "") →
      transformToDodoPayments d b =
        Except.error (DiscountError.invalidDiscount d.id)) ∧
    (d.name ≠ "" → d.code ≠ "" → d.isPercent = true →
      (transformToDodoPayments d b).toOption.isSome = true) := by
  constructor
  · intro h
    unfold transformToDodoPayments
    rw [if_pos h]
  · intro hn hc hp
    rw [transform_ok d b hn hc hp]
    rfl

/-- Witness for C4 (amended): the error branch at an empty-name record and
the success branch at the invalid `emptyIdDiscount`. -/
theorem c4_amended_transform_checks_witness :
    transformToDodoPayments emptyNameDiscount "brand_1" =
      Except.error (DiscountError.invalidDiscount emptyNameDiscount.id) ∧
    (transformToDodoPayments emptyIdDiscount "brand_1").toOption.isSome =
      true :=
  ⟨(c4_amended_transform_checks emptyNameDiscount "brand_1").1 (Or.inl rfl),
   (c4_amended_transform_checks emptyIdDiscount "brand_1").2
     (by simp [emptyIdDiscount, springDiscount])
     (by simp [emptyIdDiscount, springDiscount]) rfl⟩

/-! ## Claim C5 -/

/-- C5 counterexample: `halfMonthDiscount` has `duration = repeating` and
`durationInMonths = 1/2`, which is a positive number but not a positive
integer (it lies strictly between the consecutive integers 0 and 1); yet
`validate` returns `true`. This refutes the claim's gloss that
`duration == repeating` holds (on validated records) if and only if
`durationInMonths` is a positive integer: the validator only checks
`> 0`, not integrality. -/
theorem c5_counterexample :
    validateCanonicalDiscount halfMonthDiscount = true ∧
    halfMonthDiscount.duration = Duration.repeating ∧
    halfMonthDiscount.durationInMonths = some ((1 : ℚ)/2) ∧
    0 < ((1 : ℚ)/2) ∧ ((1 : ℚ)/2) < 1 := by
  refine ⟨?_, rfl, rfl, by norm_num, by norm_num⟩
  simp [validateCanonicalDiscount, halfMonthDiscount, springDiscount,
    dimPositiveNumber]

/-- C5 (amended): `validate d` returns `false` for every `d` where
`d.duration == 'repeating'` differs from "`d.durationInMonths` is a number
greater than 0", and for every `d` where `duration` is not `'repeating'`
and `durationInMonths` is not null. (The claim's "positive integer" gloss
is weakened to "positive number": the validator does not check
integrality, as the counterexample shows.) -/
theorem c5_amended_duration_invariant (d : CanonicalDiscount) :
    (¬ ((d.duration = Duration.repeating) ↔
        dimPositiveNumber d.durationInMonths = true) →
      validateCanonicalDiscount d = false) ∧
    (d.duration ≠ Duration.repeating → d.durationInMonths ≠ none →
      validateCanonicalDiscount d = false) := by
  constructor
  · intro h
    unfold validateCanonicalDiscount
    split_ifs with h1 h2 h3 h4 <;> try rfl
    exfalso
    apply h
    constructor
    · intro hr
      by_cases hdp : dimPositiveNumber d.durationInMonths = true
      · exact hdp
      · exact absurd ⟨hr, Bool.not_eq_true _ ▸ hdp⟩ h3
    · intro hdp
      by_contra hne
      exact h4 ⟨hne, dimPositiveNumber_ne_none d.durationInMonths hdp⟩
  · intro hne hnn
    unfold validateCanonicalDiscount
    split_ifs with h1 h2 h3 h4 <;> try rfl
    exact absurd ⟨hne, hnn⟩ h4

/-- Witness for C5 (amended): `repeatingNullDiscount` has
`duration = repeating` but `durationInMonths = null` (a mismatch), and
`validate` returns `false` on it. -/
theorem c5_amended_duration_invariant_witness :
    (¬ ((repeatingNullDiscount.duration = Duration.repeating) ↔
        dimPositiveNumber repeatingNullDiscount.durationInMonths = true)) ∧
    validateCanonicalDiscount repeatingNullDiscount = false :=
  ⟨by decide,
   (c5_amended_duration_invariant repeatingNullDiscount).1 (by decide)⟩

/-! ## Claim C6 -/

/-- C6: for every input list and every combination of the optional
filters, `filterDiscounts` returns exactly the input elements that satisfy
every supplied constraint (an omitted parameter imposes no constraint),
expressed as equality with `List.filter` of the conjunction predicate
`matchesDiscountFilters`; and the output is a sublist of the input, so the
relative order of the input is preserved (the model is a pure function, so
there are no side effects). -/
theorem c6_filter_spec (discounts : List CanonicalDiscount)
    (statusFilter : Option DiscountStatus) (typeFilter : Option TypeFilter) :
    filterDiscounts discounts statusFilter typeFilter =
      discounts.filter
        (fun d => matchesDiscountFilters d statusFilter typeFilter) ∧
    (filterDiscounts discounts statusFilter typeFilter).Sublist discounts := by
  have key : filterDiscounts discounts statusFilter typeFilter =
      discounts.filter
        (fun d => matchesDiscountFilters d statusFilter typeFilter) := by
    cases statusFilter <;> cases typeFilter <;>
      simp [filterDiscounts, matchesDiscountFilters, List.filter_filter,
        Bool.and_comm]
  exact ⟨key, key ▸ List.filter_sublist discounts⟩

/-! ## Claim C7 -/

/-- C7: if the upstream list call reports a present error or a non-200
status code, `importLemonSqueezyDiscounts` fails by propagating the
fetch-failure error; and whenever it returns a list at all, the response
was a success and the list is the complete mapping of every raw record of
the page — never a partial or corrupt sequence. -/
theorem c7_import_fail_fast (response : LSListResponse) :
    (response.error ≠ none ∨ response.statusCode ≠ 200 →
      importLemonSqueezyDiscounts response =
        Except.error (SourceFetchError.fetchFailed
          (match response.error with
           | some m => m
           | none => "Unknown error"))) ∧
    (∀ l, importLemonSqueezyDiscounts response = Except.ok l →
      response.error = none ∧ response.statusCode = 200 ∧
      l = response.data.map
        (fun lsDiscount => (transformLemonSqueezyDiscount lsDiscount).1)) := by
  constructor
  · intro h
    unfold importLemonSqueezyDiscounts
    rw [if_pos h]
  · intro l hl
    by_cases h : response.error ≠ none ∨ response.statusCode ≠ 200
    · rw [importLemonSqueezyDiscounts, if_pos h] at hl
      exact absurd hl (by simp)
    · push_neg at h
      rw [importLemonSqueezyDiscounts, if_neg (by push_neg; exact h)] at hl
      exact ⟨h.1, h.2, (Except.ok.injEq _ _ ▸ hl).symm⟩

/-- Witness for C7 at a concrete non-success response (status 500):
the import call propagates the fetch error. -/
theorem c7_import_fail_fast_witness :
    (failedResponse.error ≠ none ∨ failedResponse.statusCode ≠ 200) ∧
    importLemonSqueezyDiscounts failedResponse =
      Except.error (SourceFetchError.fetchFailed "Unknown error") := by
  have h : failedResponse.error ≠ none ∨ failedResponse.statusCode ≠ 200 :=
    Or.inr (by decide)
  exact ⟨h, (c7_import_fail_fast failedResponse).1 h⟩

/-! ## Claim C8 -/

/-- C8: filtering by status `'published'` is idempotent — applying the
same status filter twice returns the same list as applying it once. -/
theorem c8_filter_published_idempotent (xs : List CanonicalDiscount) :
    filterDiscounts (filterDiscounts xs (some DiscountStatus.published) none)
        (some DiscountStatus.published) none =
      filterDiscounts xs (some DiscountStatus.published) none := by
  simp [filterDiscounts, List.filter_filter]

/-! ## Claim C9 -/

/-- C9: on a record with an empty `name` or `code` AND `isPercent = false`,
`transformToDodoPayments` raises the missing-name-or-code
(invalid-data) error, not the unsupported-discount-type error: the
required-field check precedes the percentage-capability check. -/
theorem c9_invalid_precedes_unsupported (d : CanonicalDiscount) (b : String)
    (h : d.name = "" ∨ d.code = "") (_hp : d.isPercent = false) :
    transformToDodoPayments d b =
      Except.error (DiscountError.invalidDiscount d.id) ∧
    ∀ n, DiscountError.invalidDiscount d.id ≠
      DiscountError.unsupportedDiscount n := by
  refine ⟨?_, fun n hn => DiscountError.noConfusion hn⟩
  unfold transformToDodoPayments
  rw [if_pos h]

/-- Witness for C9 at a fixed-amount record with an empty `code`. -/
theorem c9_invalid_precedes_unsupported_witness :
    (emptyCodeFixedDiscount.name = "" ∨ emptyCodeFixedDiscount.code = "") ∧
    emptyCodeFixedDiscount.isPercent = false ∧
    transformToDodoPayments emptyCodeFixedDiscount "brand_1" =
      Except.error
        (DiscountError.invalidDiscount emptyCodeFixedDiscount.id) ∧
    ∀ n, DiscountError.invalidDiscount emptyCodeFixedDiscount.id ≠
      DiscountError.unsupportedDiscount n :=
  ⟨Or.inr rfl, rfl,
   c9_invalid_precedes_unsupported emptyCodeFixedDiscount "brand_1"
     (Or.inr rfl) rfl⟩

/-! ## Claim C10 -/

/-- C10: for every raw LemonSqueezy record whose attributes have
`duration = 'repeating'` and `duration_in_months = null`,
`transformLemonSqueezyDiscount` returns — without error and without any
warning — a `CanonicalDiscount` with `duration = 'repeating'` and
`durationInMonths = null`, on which `validate` returns `false`:
the mapping does not establish the model invariants, so the output of
the import step is not guaranteed to pass `validate`. -/
theorem c10_importer_breaks_invariant (lsDiscount : LemonSqueezyDiscount)
    (hd : lsDiscount.attributes.duration = "repeating")
    (hm : lsDiscount.attributes.duration_in_months = none) :
    (transformLemonSqueezyDiscount lsDiscount).1.duration =
      Duration.repeating ∧
    (transformLemonSqueezyDiscount lsDiscount).1.durationInMonths = none ∧
    (transformLemonSqueezyDiscount lsDiscount).2 = [] ∧
    validateCanonicalDiscount (transformLemonSqueezyDiscount lsDiscount).1 =
      false := by
  have h1 : (transformLemonSqueezyDiscount lsDiscount).1.duration =
      Duration.repeating := by
    simp [transformLemonSqueezyDiscount, hd]
  have h2 : (transformLemonSqueezyDiscount lsDiscount).1.durationInMonths =
      none := by
    simp [transformLemonSqueezyDiscount, hd, hm]
  have h3 : (transformLemonSqueezyDiscount lsDiscount).2 = [] := by
    simp [transformLemonSqueezyDiscount, hd]
  exact ⟨h1, h2, h3,
    validate_false_of_repeating_none _ h1 h2⟩

/-- Witness for C10 at the concrete raw record `lsRepeatingNull`. -/
theorem c10_importer_breaks_invariant_witness :
    lsRepeatingNull.attributes.duration = "repeating" ∧
    lsRepeatingNull.attributes.duration_in_months = none ∧
    (transformLemonSqueezyDiscount lsRepeatingNull).1.duration =
      Duration.repeating ∧
    (transformLemonSqueezyDiscount lsRepeatingNull).1.durationInMonths =
      none ∧
    (transformLemonSqueezyDiscount lsRepeatingNull).2 = [] ∧
    validateCanonicalDiscount
      (transformLemonSqueezyDiscount lsRepeatingNull).1 = false :=
  ⟨rfl, rfl, c10_importer_breaks_invariant lsRepeatingNull rfl rfl⟩
